import Mathlib

/-!
DirectInput keyboard / mouse poller (`Runtime/Input/DInput/DInput.cpp`)

A shallow embedding of the class `Directus::DInput`.

* The object is the record `DInput` of its five data members.
* Every member function takes the object and the results that the platform
  hands back for the calls the function makes, and returns the function's
  value, the object afterwards and the chronological list of platform calls
  and log lines it issued (`Ret`).
* A call through a null interface pointer, and a thrown `std::out_of_range`,
  have no result (`none`).
* The destructor ends the lifetime of the object: it hands back its events
  only, and a run on a destroyed object has no result.
* What `GetDeviceState` stores in the member buffer it is handed, on success
  and on failure, is an answer of the platform.
* `HRESULT`, `LONG` are integers, `BYTE` is a number below 256, an interface
  pointer is a natural number with `0` for `nullptr`.
-/

namespace Directus

/-! ## Platform vocabulary (`winerror.h`, `dinput.h`) -/

/-- Result code of a platform call, a signed 32-bit value. -/
abbrev HRESULT := Int

/-- The macro `SUCCEEDED(hr)`: `hr >= 0`. -/
def SUCCEEDED (hr : HRESULT) : Bool := decide (0 ≤ hr)

/-- The macro `FAILED(hr)`: `hr < 0`. -/
def FAILED (hr : HRESULT) : Bool := decide (hr < 0)

/-- The constant `DIERR_INPUTLOST`, the value `0x8007001E` read as a signed 32-bit integer. -/
def DIERR_INPUTLOST : HRESULT := 0x8007001E - 2 ^ 32

/-- The constant `DIERR_NOTACQUIRED`, the value `0x8007000C` read as a signed 32-bit integer. -/
def DIERR_NOTACQUIRED : HRESULT := 0x8007000C - 2 ^ 32

/-- The constant `DIERR_INVALIDPARAM` (`E_INVALIDARG`), `0x80070057`. -/
def DIERR_INVALIDPARAM : HRESULT := 0x80070057 - 2 ^ 32

/-- The constant `DIERR_BETADIRECTINPUTVERSION`, `0x80070481`. -/
def DIERR_BETADIRECTINPUTVERSION : HRESULT := 0x80070481 - 2 ^ 32

/-- The constant `DIERR_OLDDIRECTINPUTVERSION`, `0x8007047E`. -/
def DIERR_OLDDIRECTINPUTVERSION : HRESULT := 0x8007047E - 2 ^ 32

/-- The constant `DIERR_OUTOFMEMORY` (`E_OUTOFMEMORY`), `0x8007000E`. -/
def DIERR_OUTOFMEMORY : HRESULT := 0x8007000E - 2 ^ 32

/-- An interface pointer or window handle; `0` is the null pointer. -/
abbrev Pointer := Nat

/-- The null pointer. -/
abbrev nullptr : Pointer := 0

/-- An unsigned 8-bit value (`BYTE`, `unsigned char`). -/
abbrev BYTE := Fin 256

/-- A signed 32-bit value (`LONG`). -/
abbrev LONG := Int

/-- The two device identifiers the source passes to `CreateDevice`. -/
inductive GUID where
  | GUID_SysKeyboard
  | GUID_SysMouse
deriving DecidableEq, Repr

/-- The two predefined data formats the source passes to `SetDataFormat`. -/
inductive DIDATAFORMAT where
  | c_dfDIKeyboard
  | c_dfDIMouse
deriving DecidableEq, Repr

/-- Cooperative-level flag `DISCL_NONEXCLUSIVE`. -/
def DISCL_NONEXCLUSIVE : Nat := 0x00000002

/-- Cooperative-level flag `DISCL_FOREGROUND`. -/
def DISCL_FOREGROUND : Nat := 0x00000004

/-- Number of entries of `DIMOUSESTATE::rgbButtons` in the platform header
(`BYTE rgbButtons[4]`; the eight-button record is the distinct type
`DIMOUSESTATE2`, which the source does not use). -/
abbrev DIMOUSESTATE_BUTTONS : Nat := 4

/-- The platform record `DIMOUSESTATE`: three `LONG` axes followed by the
button bytes. `ReadMouse` asks the platform for `sizeof(DIMOUSESTATE)` bytes
in the format `c_dfDIMouse`, which is this record. -/
structure DIMOUSESTATE where
  lX : LONG
  lY : LONG
  lZ : LONG
  rgbButtons : Fin DIMOUSESTATE_BUTTONS → BYTE

/-- Number of bytes of `m_keyboardState` (`sizeof(m_keyboardState)`, the size
of the format `c_dfDIKeyboard`). -/
abbrev KEYBOARD_STATE_SIZE : Nat := 256

/-- The platform calls and log lines a member function can issue. Calls
through an interface pointer carry that pointer first. -/
inductive Event where
  | SetForegroundWindow (hWnd : Pointer)
  | DirectInput8Create (hinst : Pointer) (dwVersion : Nat)
  | CreateDevice (self : Pointer) (rguid : GUID)
  | SetDataFormat (self : Pointer) (lpdf : DIDATAFORMAT)
  | SetCooperativeLevel (self : Pointer) (hwnd : Pointer) (dwFlags : Nat)
  | Acquire (self : Pointer)
  | Unacquire (self : Pointer)
  | Release (self : Pointer)
  | GetDeviceState (self : Pointer) (cbData : Nat)
  | LOG_ERROR (text : String)
  | LOG_INFO (text : String)
deriving DecidableEq, Repr

/-- Result of a call that returns an interface pointer through an
out-parameter (`DirectInput8Create`, `IDirectInput8::CreateDevice`): the
`HRESULT` and the pointer found in the out-parameter afterwards. A
successful creation yields a non-null pointer. -/
structure Created where
  result : HRESULT
  ppv : Pointer
  nonnull : SUCCEEDED result = true → ppv ≠ nullptr

/-- Result of `IDirectInputDevice8::GetDeviceState`, which is handed a
pointer to the live member buffer: the `HRESULT`; `data`, the device state
the platform stores through the pointer when the call succeeds; and
`onFailure`, what a failing call has stored through the pointer, `none`
when it stored nothing. -/
structure DeviceState (α : Type) where
  result : HRESULT
  data : α
  onFailure : Option α

/-- Buffer contents after `GetDeviceState` was handed a pointer to `old`. -/
def DeviceState.stored {α : Type} (r : DeviceState α) (old : α) : α :=
  if SUCCEEDED r.result then r.data
  else
    match r.onFailure with
    | some left => left
    | none => old

/-! ## The object -/

/-- The data members of `Directus::DInput`. -/
structure DInput where
  m_directInput : Pointer
  m_keyboard : Pointer
  m_mouse : Pointer
  m_mouseState : DIMOUSESTATE
  m_keyboardState : Fin KEYBOARD_STATE_SIZE → BYTE

/-- What a member function hands back: its return value, the object after the
call and the events it issued, oldest first. -/
structure Ret (α : Type) where
  value : α
  self : DInput
  trace : List Event

/-- A three-component vector (`Math::Vector3`) over the component type `F`. -/
structure Vector3 (F : Type) where
  x : F
  y : F
  z : F
deriving DecidableEq, Repr

/-- The constructor `DInput::DInput()` (lines 36-41), run on the storage the
object is created in: it assigns the three pointers and nothing else, so
`m_mouseState` and `m_keyboardState` keep what the storage held. -/
def DInput.constructor (storage : DInput) : DInput :=
  { storage with
    m_directInput := nullptr
    m_keyboard := nullptr
    m_mouse := nullptr }

/-- Member function `DInput::GetKeyboard()` (lines 189-192): `SUCCEEDED(m_keyboard->Acquire())`. -/
def DInput.GetKeyboard (self : DInput) (acquire : HRESULT) : Option (Ret Bool) :=
  if self.m_keyboard = nullptr then none
  else some ⟨SUCCEEDED acquire, self, [Event.Acquire self.m_keyboard]⟩

/-- Member function `DInput::GetMouse()` (lines 194-197): `SUCCEEDED(m_mouse->Acquire())`. -/
def DInput.GetMouse (self : DInput) (acquire : HRESULT) : Option (Ret Bool) :=
  if self.m_mouse = nullptr then none
  else some ⟨SUCCEEDED acquire, self, [Event.Acquire self.m_mouse]⟩

/-- Member function `DInput::ReadKeyboard()` (lines 199-212). `read` is what `GetDeviceState`
gives, `acquire` what `Acquire` gives if it is called. -/
def DInput.ReadKeyboard (self : DInput) (read : DeviceState (Fin KEYBOARD_STATE_SIZE → BYTE))
    (acquire : HRESULT) : Option (Ret Bool) :=
  if self.m_keyboard = nullptr then none
  else
    -- Read keyboard
    let result := read.result
    let s1 := { self with m_keyboardState := read.stored self.m_keyboardState }
    let t1 := [Event.GetDeviceState self.m_keyboard KEYBOARD_STATE_SIZE]
    if SUCCEEDED result then some ⟨true, s1, t1⟩
    -- If the keyboard lost focus or was not acquired then try to get control back.
    else if result = DIERR_INPUTLOST ∨ result = DIERR_NOTACQUIRED then
      match s1.GetKeyboard acquire with
      | none => none
      | some r => some ⟨false, r.self, t1 ++ r.trace⟩
    else some ⟨false, s1, t1⟩

/-- Size in bytes of `DIMOUSESTATE`: three `LONG`s and the button bytes. -/
def sizeof_DIMOUSESTATE : Nat := 3 * 4 + DIMOUSESTATE_BUTTONS

/-- Member function `DInput::ReadMouse()` (lines 214-227). -/
def DInput.ReadMouse (self : DInput) (read : DeviceState DIMOUSESTATE)
    (acquire : HRESULT) : Option (Ret Bool) :=
  if self.m_mouse = nullptr then none
  else
    -- Read mouse
    let result := read.result
    let s1 := { self with m_mouseState := read.stored self.m_mouseState }
    let t1 := [Event.GetDeviceState self.m_mouse sizeof_DIMOUSESTATE]
    if SUCCEEDED result then some ⟨true, s1, t1⟩
    -- If the mouse lost focus or was not acquired then try to get control back.
    else if result = DIERR_INPUTLOST ∨ result = DIERR_NOTACQUIRED then
      match s1.GetMouse acquire with
      | none => none
      | some r => some ⟨false, r.self, t1 ++ r.trace⟩
    else some ⟨false, s1, t1⟩

/-- What the platform answers to the calls of one `Update()`. -/
structure UpdatePlatform where
  keyboardState : DeviceState (Fin KEYBOARD_STATE_SIZE → BYTE)
  keyboardAcquire : HRESULT
  mouseState : DeviceState DIMOUSESTATE
  mouseAcquire : HRESULT

/-- Member function `DInput::Update()` (lines 160-164): `ReadKeyboard(); ReadMouse();`, both
return values discarded. -/
def DInput.Update (self : DInput) (w : UpdatePlatform) : Option (Ret Unit) :=
  match self.ReadKeyboard w.keyboardState w.keyboardAcquire with
  | none => none
  | some k =>
    match k.self.ReadMouse w.mouseState w.mouseAcquire with
    | none => none
    | some m => some ⟨(), m.self, k.trace ++ m.trace⟩

/-- Member function `DInput::IsKeyboardKeyDown(int key)` (lines 166-170):
`m_keyboardState[key] & 0x80`, converted to `bool`. An index outside the
array has no defined result. -/
def DInput.IsKeyboardKeyDown (self : DInput) (key : Int) : Option Bool :=
  if h : 0 ≤ key ∧ key.toNat < KEYBOARD_STATE_SIZE then
    -- hex: 0x80 | Bin: 10000000
    some (decide ((self.m_keyboardState ⟨key.toNat, h.2⟩).val &&& 0x80 ≠ 0))
  else none

/-- Member function `DInput::IsMouseKeyDown(int key)` (lines 172-179):
`m_mouseState.rgbButtons[key] & 0x80`, converted to `bool`. An index outside
the array has no defined result. -/
def DInput.IsMouseKeyDown (self : DInput) (key : Int) : Option Bool :=
  if h : 0 ≤ key ∧ key.toNat < DIMOUSESTATE_BUTTONS then
    some (decide ((self.m_mouseState.rgbButtons ⟨key.toNat, h.2⟩).val &&& 0x80 ≠ 0))
  else none

/-- Member function `DInput::GetMouseDelta()` (lines 181-187). `toFloat` is the conversion
`(float)` from `LONG`. -/
def DInput.GetMouseDelta {F : Type} (toFloat : LONG → F) (self : DInput) : Vector3 F :=
  -- lX = position x delta
  -- lY = position y delta
  -- lZ = wheel delta
  ⟨toFloat self.m_mouseState.lX, toFloat self.m_mouseState.lY, toFloat self.m_mouseState.lZ⟩

/-! ## `Initialize` -/

/-- What `ss << hex << n` writes for a non-negative `n`: the lowercase
hexadecimal digits, no prefix, no padding. -/
def hex (n : Nat) : String := String.mk (Nat.toDigits 16 n)

/-- The call `std::string::erase(pos, len)` on a copy of `s`: drops the `len`
characters from index `pos` on (fewer when the string ends earlier), and
throws `std::out_of_range` (`none`) when `pos` is beyond the end. -/
def erase (s : String) (pos len : Nat) : Option String :=
  if pos > s.data.length then none
  else some (String.mk (s.data.take pos ++ s.data.drop (pos + len)))

/-- The error line chosen by the `switch` on the result of
`DirectInput8Create` (lines 84-91). -/
def DirectInput8CreateError (result : HRESULT) : String :=
  if result = DIERR_INVALIDPARAM then
    "DInput: DirectInput8Create() Failed, invalid parameters."
  else if result = DIERR_BETADIRECTINPUTVERSION then
    "DInput: DirectInput8Create() Failed, beta direct input version."
  else if result = DIERR_OLDDIRECTINPUTVERSION then
    "DInput: DirectInput8Create() Failed, old direct input version."
  else if result = DIERR_OUTOFMEMORY then
    "DInput: DirectInput8Create() Failed, out of memory."
  else "DInput: Failed to initialize the DirectInput interface."

/-- What the engine and the platform answer to the calls of one
`Initialize()`; an answer is used only if the call is reached. -/
structure InitializePlatform where
  GetWindowHandle : Pointer
  GetWindowInstance : Pointer
  DirectInput8Create : Created
  keyboardCreateDevice : Created
  keyboardSetDataFormat : HRESULT
  keyboardSetCooperativeLevel : HRESULT
  keyboardAcquire : HRESULT
  mouseCreateDevice : Created
  mouseSetDataFormat : HRESULT
  mouseSetCooperativeLevel : HRESULT
  mouseAcquire : HRESULT

/-- The events of one step whose failure is only logged: the call, then the
error line when `failed`. -/
def logged (call : Event) (failed : Bool) (text : String) : List Event :=
  if failed then [call, Event.LOG_ERROR text] else [call]

/-- Lines 151-157 of `Initialize`: the version line. `none` when an `erase`
throws. -/
def versionLine (DIRECTINPUT_VERSION : Nat) : Option String :=
  let ss := hex DIRECTINPUT_VERSION
  match erase ss 1 2, erase ss 0 1 with
  | some major, some minor => some ("Input: DirectInput " ++ major ++ "." ++ minor)
  | _, _ => none

/-- Member function `DInput::Initialize()` (lines 69-158). `DIRECTINPUT_VERSION` is the
macro of that name. -/
def DInput.Initialize (DIRECTINPUT_VERSION : Nat) (self : DInput) (w : InitializePlatform) :
    Option (Ret Bool) :=
  if w.GetWindowHandle = nullptr ∨ w.GetWindowInstance = nullptr then
    some ⟨false, self, []⟩
  else
    let windowHandle := w.GetWindowHandle
    let windowInstance := w.GetWindowInstance
    -- Make sure the window has focus
    let t0 := [Event.SetForegroundWindow windowHandle]
    -- Initialize the main direct input interface.
    let t1 := t0 ++ [Event.DirectInput8Create windowInstance DIRECTINPUT_VERSION]
    let s1 := { self with m_directInput := w.DirectInput8Create.ppv }
    if FAILED w.DirectInput8Create.result then
      some ⟨false, s1,
        t1 ++ [Event.LOG_ERROR (DirectInput8CreateError w.DirectInput8Create.result)]⟩
    -- Initialize the direct input interface for the keyboard.
    else if s1.m_directInput = nullptr then none
    else
      let t2 := t1 ++ [Event.CreateDevice s1.m_directInput GUID.GUID_SysKeyboard]
      let s2 := { s1 with m_keyboard := w.keyboardCreateDevice.ppv }
      if FAILED w.keyboardCreateDevice.result then
        some ⟨false, s2,
          t2 ++ [Event.LOG_ERROR "DInput: Failed to initialize a DirectInput keyboard."]⟩
      else if s2.m_keyboard = nullptr then none
      else
        -- Set the data format.
        let t3 := t2 ++ logged (Event.SetDataFormat s2.m_keyboard DIDATAFORMAT.c_dfDIKeyboard)
          (FAILED w.keyboardSetDataFormat)
          "DInput: Failed to initialize DirectInput keyboard data format."
        -- Set the cooperative level of the keyboard to share with other programs.
        let t4 := t3 ++ logged
          (Event.SetCooperativeLevel s2.m_keyboard windowHandle
            (DISCL_FOREGROUND ||| DISCL_NONEXCLUSIVE))
          (FAILED w.keyboardSetCooperativeLevel)
          "DInput: Failed to set DirectInput keyboard's cooperative level."
        -- Acquire the keyboard.
        match s2.GetKeyboard w.keyboardAcquire with
        | none => none
        | some k =>
          let t5 := t4 ++ k.trace ++
            (if !k.value then [Event.LOG_ERROR "DInput: Failed to aquire the keyboard."] else [])
          -- Initialize the direct input interface for the mouse.
          if k.self.m_directInput = nullptr then none
          else
            let t6 := t5 ++ [Event.CreateDevice k.self.m_directInput GUID.GUID_SysMouse]
            let s6 := { k.self with m_mouse := w.mouseCreateDevice.ppv }
            if FAILED w.mouseCreateDevice.result then
              some ⟨false, s6,
                t6 ++ [Event.LOG_ERROR
                  "DInput: Failed to set DirectInput keyboard's cooperative level."]⟩
            else if s6.m_mouse = nullptr then none
            else
              -- Set the data format for the mouse
              let t7 := t6 ++ logged (Event.SetDataFormat s6.m_mouse DIDATAFORMAT.c_dfDIMouse)
                (FAILED w.mouseSetDataFormat)
                "DInput: Failed to initialize a DirectInput mouse."
              -- Set the cooperative level of the mouse to share with other programs.
              let t8 := t7 ++ logged
                (Event.SetCooperativeLevel s6.m_mouse windowHandle
                  (DISCL_FOREGROUND ||| DISCL_NONEXCLUSIVE))
                (FAILED w.mouseSetCooperativeLevel)
                "DInput: Failed to set DirectInput mouse's cooperative level."
              -- Acquire the mouse.
              match s6.GetMouse w.mouseAcquire with
              | none => none
              | some m =>
                let t9 := t8 ++ m.trace ++
                  (if !m.value then [Event.LOG_ERROR "DInput: Failed to aquire the mouse."]
                   else [])
                match versionLine DIRECTINPUT_VERSION with
                | none => none
                | some line => some ⟨true, m.self, t9 ++ [Event.LOG_INFO line]⟩

/-- The informational lines of a trace, in order. -/
def infoLines : List Event → List String
  | [] => []
  | Event.LOG_INFO text :: rest => text :: infoLines rest
  | _ :: rest => infoLines rest

/-! ## Sequences of calls -/

/-- One call of the public surface the engine makes between construction
and destruction, with the answers of the platform. -/
inductive Call where
  | Initialize (w : InitializePlatform)
  | Update (w : UpdatePlatform)

/-- Whether the platform stored anything in the mouse record during a call:
the mouse read succeeded, or it failed and stored all the same
(`Initialize` reads nothing). -/
def Call.mouseRecordWritten : Call → Bool
  | Call.Initialize _ => false
  | Call.Update w => SUCCEEDED w.mouseState.result || w.mouseState.onFailure.isSome

/-- The object after a sequence of calls, `none` when one of them goes
through a null pointer. -/
def DInput.run (DIRECTINPUT_VERSION : Nat) (self : DInput) : List Call → Option DInput
  | [] => some self
  | Call.Initialize w :: rest =>
    match self.Initialize DIRECTINPUT_VERSION w with
    | none => none
    | some r => r.self.run DIRECTINPUT_VERSION rest
  | Call.Update w :: rest =>
    match self.Update w with
    | none => none
    | some r => r.self.run DIRECTINPUT_VERSION rest

/-- The value of `(float)n` as a rational number, for the `LONG`s that a
`float` represents exactly (those of magnitude up to `2 ^ 24`). -/
def exactFloat (n : LONG) : ℚ := n

/-! ## Concrete inputs -/

/-- An object whose members are all zero. -/
def zeroed : DInput :=
  ⟨nullptr, nullptr, nullptr, ⟨0, 0, 0, fun _ => 0⟩, fun _ => 0⟩

/-- An object with three live interface pointers and zeroed buffers. -/
def acquired : DInput :=
  ⟨0x1000, 0x2000, 0x3000, ⟨0, 0, 0, fun _ => 0⟩, fun _ => 0⟩

/-- Storage whose bytes are not zero: every key byte is `0xCD` and the mouse
record holds `lX = 7`. -/
def dirtyStorage : DInput :=
  ⟨0xCDCD, 0xCDCD, 0xCDCD, ⟨7, 0, 0, fun _ => 0xCD⟩, fun _ => 0xCD⟩

/-- Every platform call of `Initialize` succeeds. -/
def allSucceed : InitializePlatform :=
  ⟨0x10, 0x20, ⟨0, 0x1000, by decide⟩, ⟨0, 0x2000, by decide⟩, 0, 0, 0,
    ⟨0, 0x3000, by decide⟩, 0, 0, 0⟩

/-- The subsystem is created, keyboard creation fails with `E_FAIL`. -/
def keyboardCreationFails : InitializePlatform :=
  ⟨0x10, 0x20, ⟨0, 0x1000, by decide⟩, ⟨0x80004005 - 2 ^ 32, nullptr, by decide⟩, 0, 0, 0,
    ⟨0, 0x3000, by decide⟩, 0, 0, 0⟩

/-- The window handle is null. -/
def noWindow : InitializePlatform :=
  ⟨nullptr, 0x20, ⟨0, 0x1000, by decide⟩, ⟨0, 0x2000, by decide⟩, 0, 0, 0,
    ⟨0, 0x3000, by decide⟩, 0, 0, 0⟩

/-- A keyboard buffer in which only index 30 is `0x80`. -/
def onlyKey30 : Fin KEYBOARD_STATE_SIZE → BYTE := fun i => if i.val = 30 then 0x80 else 0

/-- The mouse state `lX = 5, lY = -3, lZ = 120, rgbButtons[0] = 0x80`. -/
def leftButtonDown : DIMOUSESTATE := ⟨5, -3, 120, fun i => if i.val = 0 then 0x80 else 0⟩

/-- Both reads of an `Update` fail with `DIERR_INPUTLOST` and store nothing;
the re-acquires succeed. -/
def inputLost : UpdatePlatform :=
  ⟨⟨DIERR_INPUTLOST, onlyKey30, none⟩, 0, ⟨DIERR_INPUTLOST, leftButtonDown, none⟩, 0⟩

/-- Both reads of an `Update` succeed. -/
def bothRead : UpdatePlatform :=
  ⟨⟨0, onlyKey30, none⟩, 0, ⟨0, leftButtonDown, none⟩, 0⟩

/-- Both reads of an `Update` fail with `DIERR_INPUTLOST`, but the platform
has stored `onlyKey30` and `leftButtonDown` through the buffer pointers all
the same; the re-acquires succeed. -/
def inputLostOverwritten : UpdatePlatform :=
  ⟨⟨DIERR_INPUTLOST, onlyKey30, some onlyKey30⟩, 0,
    ⟨DIERR_INPUTLOST, leftButtonDown, some leftButtonDown⟩, 0⟩

/-- The subsystem and the keyboard are created, mouse creation fails with
`E_FAIL`. -/
def mouseCreationFails : InitializePlatform :=
  ⟨0x10, 0x20, ⟨0, 0x1000, by decide⟩, ⟨0, 0x2000, by decide⟩, 0, 0, 0,
    ⟨0x80004005 - 2 ^ 32, nullptr, by decide⟩, 0, 0, 0⟩

/-- The three creations succeed and so does every mouse step, but the
keyboard's `SetDataFormat`, `SetCooperativeLevel` and `Acquire` all fail
with `E_FAIL`. -/
def keyboardSetUpFails : InitializePlatform :=
  ⟨0x10, 0x20, ⟨0, 0x1000, by decide⟩, ⟨0, 0x2000, by decide⟩,
    0x80004005 - 2 ^ 32, 0x80004005 - 2 ^ 32, 0x80004005 - 2 ^ 32,
    ⟨0, 0x3000, by decide⟩, 0, 0, 0⟩

/-! ## Basic facts -/

theorem not_FAILED_iff (hr : HRESULT) : FAILED hr = false ↔ SUCCEEDED hr = true := by
  simp [FAILED, SUCCEEDED]

theorem toDigitsCore_ne_nil (b : Nat) :
    ∀ (fuel n : Nat) (ds : List Char), ds ≠ [] → Nat.toDigitsCore b fuel n ds ≠ [] := by
  intro fuel
  induction fuel with
  | zero => intro n ds h; simpa [Nat.toDigitsCore] using h
  | succ k ih =>
    intro n ds _
    unfold Nat.toDigitsCore
    dsimp only
    split
    · simp
    · exact ih _ _ (by simp)

theorem toDigits_ne_nil (b n : Nat) : Nat.toDigits b n ≠ [] := by
  unfold Nat.toDigits Nat.toDigitsCore
  dsimp only
  split
  · simp
  · exact toDigitsCore_ne_nil _ _ _ _ (by simp)

theorem versionLine_eq (v : Nat) :
    versionLine v = some ("Input: DirectInput "
      ++ String.mk ((hex v).data.take 1 ++ (hex v).data.drop 3) ++ "."
      ++ String.mk ((hex v).data.drop 1)) := by
  have h : 1 ≤ (hex v).data.length := by
    have := toDigits_ne_nil 16 v
    simp only [hex]
    exact List.length_pos.mpr this
  have h1 : ¬ (1 > (hex v).data.length) := by omega
  have e1 : erase (hex v) 1 2
      = some (String.mk ((hex v).data.take 1 ++ (hex v).data.drop 3)) := by
    unfold erase
    rw [if_neg h1]
  have e2 : erase (hex v) 0 1 = some (String.mk ((hex v).data.drop 1)) := by
    unfold erase
    rw [if_neg (by omega)]
    simp
  unfold versionLine
  simp only [e1, e2]

theorem Initialize_infoLines (v : Nat) (s : DInput) (w : InitializePlatform) (line : String)
    (hl : versionLine v = some line) :
    ∃ r, s.Initialize v w = some r ∧
      infoLines r.trace = if r.value then [line] else [] := by
  by_cases h0 : w.GetWindowHandle = nullptr ∨ w.GetWindowInstance = nullptr
  · exact ⟨⟨false, s, []⟩, by simp [DInput.Initialize, h0], by simp [infoLines]⟩
  · have hh : w.GetWindowHandle ≠ nullptr ∧ w.GetWindowInstance ≠ nullptr := by
      constructor <;> intro h <;> exact h0 (by simp [h])
    cases hd : FAILED w.DirectInput8Create.result with
    | true => simp [DInput.Initialize, h0, hd, infoLines]
    | false =>
      have nd := w.DirectInput8Create.nonnull ((not_FAILED_iff _).mp hd)
      cases hk : FAILED w.keyboardCreateDevice.result with
      | true => simp [DInput.Initialize, h0, hd, hk, nd, infoLines]
      | false =>
        have nk := w.keyboardCreateDevice.nonnull ((not_FAILED_iff _).mp hk)
        cases hm : FAILED w.mouseCreateDevice.result with
        | true =>
          cases hka : SUCCEEDED w.keyboardAcquire <;>
          cases hkf : FAILED w.keyboardSetDataFormat <;>
          cases hkc : FAILED w.keyboardSetCooperativeLevel <;>
          simp [DInput.Initialize, DInput.GetKeyboard, h0, hd, hk, hm, nd, nk, infoLines,
            logged, hka, hkf, hkc]
        | false =>
          have nm := w.mouseCreateDevice.nonnull ((not_FAILED_iff _).mp hm)
          cases hka : SUCCEEDED w.keyboardAcquire <;>
          cases hkf : FAILED w.keyboardSetDataFormat <;>
          cases hkc : FAILED w.keyboardSetCooperativeLevel <;>
          cases hma : SUCCEEDED w.mouseAcquire <;>
          cases hmf : FAILED w.mouseSetDataFormat <;>
          cases hmc : FAILED w.mouseSetCooperativeLevel <;>
          simp [DInput.Initialize, DInput.GetKeyboard, DInput.GetMouse, hl,
            h0, hd, hk, hm, nd, nk, nm, hh, infoLines, logged, hka, hkf, hkc, hma, hmf, hmc]

/-! ## Claims about `Initialize` -/

/-- C1: for every combination of answers of the engine and the platform,
`Initialize` returns, and it returns `false` exactly when the window handle
or the instance handle is null or one of the three creations
(`DirectInput8Create`, keyboard `CreateDevice`, mouse `CreateDevice`) fails;
in particular, with both handles present and the three creations
succeeding, it returns `true` whatever `SetDataFormat`,
`SetCooperativeLevel` and `Acquire` answer for either device. -/
theorem Initialize_false_iff (v : Nat) (s : DInput) (w : InitializePlatform) :
    (∃ r, s.Initialize v w = some r ∧
      (r.value = false ↔
        (w.GetWindowHandle = nullptr ∨ w.GetWindowInstance = nullptr
          ∨ FAILED w.DirectInput8Create.result = true
          ∨ FAILED w.keyboardCreateDevice.result = true
          ∨ FAILED w.mouseCreateDevice.result = true)))
    ∧ ((w.GetWindowHandle ≠ nullptr ∧ w.GetWindowInstance ≠ nullptr
          ∧ FAILED w.DirectInput8Create.result = false
          ∧ FAILED w.keyboardCreateDevice.result = false
          ∧ FAILED w.mouseCreateDevice.result = false) →
        ∀ kf kc ka mf mc ma : HRESULT,
          ∃ r, s.Initialize v
              { w with
                keyboardSetDataFormat := kf
                keyboardSetCooperativeLevel := kc
                keyboardAcquire := ka
                mouseSetDataFormat := mf
                mouseSetCooperativeLevel := mc
                mouseAcquire := ma } = some r ∧ r.value = true) := by
  constructor
  · by_cases h0 : w.GetWindowHandle = nullptr ∨ w.GetWindowInstance = nullptr
    · refine ⟨⟨false, s, []⟩, by simp [DInput.Initialize, h0], ?_⟩
      rcases h0 with h | h <;> simp [h]
    · have hh : w.GetWindowHandle ≠ nullptr ∧ w.GetWindowInstance ≠ nullptr := by
        constructor <;> intro h <;> exact h0 (by simp [h])
      cases hd : FAILED w.DirectInput8Create.result with
      | true => simp [DInput.Initialize, h0, hd]
      | false =>
        have nd := w.DirectInput8Create.nonnull ((not_FAILED_iff _).mp hd)
        cases hk : FAILED w.keyboardCreateDevice.result with
        | true => simp [DInput.Initialize, h0, hd, hk, nd]
        | false =>
          have nk := w.keyboardCreateDevice.nonnull ((not_FAILED_iff _).mp hk)
          cases hm : FAILED w.mouseCreateDevice.result with
          | true => simp [DInput.Initialize, DInput.GetKeyboard, h0, hd, hk, hm, nd, nk]
          | false =>
            have nm := w.mouseCreateDevice.nonnull ((not_FAILED_iff _).mp hm)
            simp [DInput.Initialize, DInput.GetKeyboard, DInput.GetMouse, versionLine_eq,
              h0, hd, hk, hm, nd, nk, nm, hh]
  · rintro ⟨hw, hi, hd, hk, hm⟩ kf kc ka mf mc ma
    have nd := w.DirectInput8Create.nonnull ((not_FAILED_iff _).mp hd)
    have nk := w.keyboardCreateDevice.nonnull ((not_FAILED_iff _).mp hk)
    have nm := w.mouseCreateDevice.nonnull ((not_FAILED_iff _).mp hm)
    simp [DInput.Initialize, DInput.GetKeyboard, DInput.GetMouse, versionLine_eq,
      hw, hi, hd, hk, hm, nd, nk, nm]

/-- Witness of `Initialize_false_iff`: with both handles present and the
three creations succeeding, `Initialize` returns `true` although all six
set-up steps fail with `E_FAIL`. -/
theorem Initialize_false_iff_witness :
    ∃ r, zeroed.Initialize 0x0800
        { allSucceed with
          keyboardSetDataFormat := -2147467259
          keyboardSetCooperativeLevel := -2147467259
          keyboardAcquire := -2147467259
          mouseSetDataFormat := -2147467259
          mouseSetCooperativeLevel := -2147467259
          mouseAcquire := -2147467259 } = some r ∧ r.value = true :=
  (Initialize_false_iff 0x0800 zeroed allSucceed).2
    ⟨by decide, by decide, by decide, by decide, by decide⟩
    (-2147467259) (-2147467259) (-2147467259) (-2147467259) (-2147467259) (-2147467259)

/-- C2: when the window handle or the instance handle is null, `Initialize`
returns `false`, issues no event at all (no platform call, hence no
subsystem or device creation) and leaves the object as it was; on a freshly
constructed object the three handles are therefore still null. -/
theorem Initialize_absent_handle (v : Nat) (s : DInput) (w : InitializePlatform)
    (h : w.GetWindowHandle = nullptr ∨ w.GetWindowInstance = nullptr) :
    s.Initialize v w = some ⟨false, s, []⟩
    ∧ ∀ storage : DInput,
        ((DInput.constructor storage).Initialize v w).map
            (fun r => (r.value, r.trace, r.self.m_directInput, r.self.m_keyboard, r.self.m_mouse))
          = some (false, [], nullptr, nullptr, nullptr) := by
  constructor
  · simp [DInput.Initialize, h]
  · intro storage
    simp [DInput.Initialize, h, DInput.constructor]

/-- Witness of `Initialize_absent_handle`: a null window handle on the
zeroed object. -/
theorem Initialize_absent_handle_witness :
    (noWindow.GetWindowHandle = nullptr ∨ noWindow.GetWindowInstance = nullptr)
    ∧ zeroed.Initialize 0x0800 noWindow = some ⟨false, zeroed, []⟩ :=
  ⟨Or.inl rfl, (Initialize_absent_handle 0x0800 zeroed noWindow (Or.inl rfl)).1⟩

/-- C3, as stated, fails: with the subsystem created and keyboard creation
failing, `Initialize` logs the keyboard failure and returns `false`; its four
events contain no `CreateDevice` for the mouse. -/
theorem keyboard_creation_failure_skips_mouse :
    ∃ r, zeroed.Initialize 0x0800 keyboardCreationFails = some r
      ∧ r.value = false
      ∧ r.trace =
          [Event.SetForegroundWindow 0x10, Event.DirectInput8Create 0x20 0x0800,
            Event.CreateDevice 0x1000 GUID.GUID_SysKeyboard,
            Event.LOG_ERROR "DInput: Failed to initialize a DirectInput keyboard."]
      ∧ ¬ ∃ p, Event.CreateDevice p GUID.GUID_SysMouse ∈ r.trace := by
  refine ⟨_, rfl, rfl, rfl, ?_⟩
  rintro ⟨p, hp⟩
  simp at hp

/-- C3, amended: with both handles present and the subsystem created,
(a) when keyboard device creation fails, `Initialize` logs the keyboard
failure and returns `false` without any mouse call: its events are exactly
set-foreground, subsystem creation, keyboard creation, the error line;
(b) when keyboard device creation succeeds, then whatever the keyboard's
`SetDataFormat`, `SetCooperativeLevel` and `Acquire` answer, each of these
three steps is made, a failing one is logged, and `Initialize` goes on to
create the mouse device and, when that creation succeeds, to set it up with
`SetDataFormat`, `SetCooperativeLevel` and `Acquire` and to return `true`;
the events are exactly the ones listed. -/
theorem keyboard_failure_and_mouse (v : Nat) (s : DInput) (w : InitializePlatform)
    (hw : w.GetWindowHandle ≠ nullptr) (hi : w.GetWindowInstance ≠ nullptr)
    (hd : FAILED w.DirectInput8Create.result = false) :
    ∃ line, versionLine v = some line ∧ ∃ r, s.Initialize v w = some r ∧
      if FAILED w.keyboardCreateDevice.result then
        r.value = false ∧
        r.trace =
          [Event.SetForegroundWindow w.GetWindowHandle,
            Event.DirectInput8Create w.GetWindowInstance v,
            Event.CreateDevice w.DirectInput8Create.ppv GUID.GUID_SysKeyboard,
            Event.LOG_ERROR "DInput: Failed to initialize a DirectInput keyboard."]
      else
        r.value = !FAILED w.mouseCreateDevice.result ∧
        r.trace =
          [Event.SetForegroundWindow w.GetWindowHandle,
            Event.DirectInput8Create w.GetWindowInstance v,
            Event.CreateDevice w.DirectInput8Create.ppv GUID.GUID_SysKeyboard,
            Event.SetDataFormat w.keyboardCreateDevice.ppv DIDATAFORMAT.c_dfDIKeyboard]
          ++ (if FAILED w.keyboardSetDataFormat then
                [Event.LOG_ERROR "DInput: Failed to initialize DirectInput keyboard data format."]
              else [])
          ++ [Event.SetCooperativeLevel w.keyboardCreateDevice.ppv w.GetWindowHandle
                (DISCL_FOREGROUND ||| DISCL_NONEXCLUSIVE)]
          ++ (if FAILED w.keyboardSetCooperativeLevel then
                [Event.LOG_ERROR "DInput: Failed to set DirectInput keyboard's cooperative level."]
              else [])
          ++ [Event.Acquire w.keyboardCreateDevice.ppv]
          ++ (if SUCCEEDED w.keyboardAcquire then []
              else [Event.LOG_ERROR "DInput: Failed to aquire the keyboard."])
          ++ [Event.CreateDevice w.DirectInput8Create.ppv GUID.GUID_SysMouse]
          ++ (if FAILED w.mouseCreateDevice.result then
                [Event.LOG_ERROR "DInput: Failed to set DirectInput keyboard's cooperative level."]
              else
                [Event.SetDataFormat w.mouseCreateDevice.ppv DIDATAFORMAT.c_dfDIMouse]
                ++ (if FAILED w.mouseSetDataFormat then
                      [Event.LOG_ERROR "DInput: Failed to initialize a DirectInput mouse."]
                    else [])
                ++ [Event.SetCooperativeLevel w.mouseCreateDevice.ppv w.GetWindowHandle
                      (DISCL_FOREGROUND ||| DISCL_NONEXCLUSIVE)]
                ++ (if FAILED w.mouseSetCooperativeLevel then
                      [Event.LOG_ERROR
                        "DInput: Failed to set DirectInput mouse's cooperative level."]
                    else [])
                ++ [Event.Acquire w.mouseCreateDevice.ppv]
                ++ (if SUCCEEDED w.mouseAcquire then []
                    else [Event.LOG_ERROR "DInput: Failed to aquire the mouse."])
                ++ [Event.LOG_INFO line]) := by
  obtain ⟨line, hl⟩ : ∃ line, versionLine v = some line := ⟨_, versionLine_eq v⟩
  refine ⟨line, hl, ?_⟩
  have nd := w.DirectInput8Create.nonnull ((not_FAILED_iff _).mp hd)
  cases hk : FAILED w.keyboardCreateDevice.result with
  | true => simp [DInput.Initialize, hw, hi, hd, hk, nd]
  | false =>
    have nk := w.keyboardCreateDevice.nonnull ((not_FAILED_iff _).mp hk)
    cases hm : FAILED w.mouseCreateDevice.result with
    | true =>
      cases hka : SUCCEEDED w.keyboardAcquire <;>
      cases hkf : FAILED w.keyboardSetDataFormat <;>
      cases hkc : FAILED w.keyboardSetCooperativeLevel <;>
      simp [DInput.Initialize, DInput.GetKeyboard, hw, hi, hd, hk, hm, nd, nk,
        logged, hka, hkf, hkc]
    | false =>
      have nm := w.mouseCreateDevice.nonnull ((not_FAILED_iff _).mp hm)
      cases hka : SUCCEEDED w.keyboardAcquire <;>
      cases hkf : FAILED w.keyboardSetDataFormat <;>
      cases hkc : FAILED w.keyboardSetCooperativeLevel <;>
      cases hma : SUCCEEDED w.mouseAcquire <;>
      cases hmf : FAILED w.mouseSetDataFormat <;>
      cases hmc : FAILED w.mouseSetCooperativeLevel <;>
      simp [DInput.Initialize, DInput.GetKeyboard, DInput.GetMouse,
        hw, hi, hd, hk, hm, nd, nk, nm, hl, logged, hka, hkf, hkc, hma, hmf, hmc]

/-- Witness of `keyboard_failure_and_mouse`: the keyboard's three set-up
steps all fail; each failure is logged, the mouse is created, formatted,
given its cooperative level and acquired, and `Initialize` returns `true`. -/
theorem keyboard_failure_and_mouse_witness :
    keyboardSetUpFails.GetWindowHandle ≠ nullptr
    ∧ keyboardSetUpFails.GetWindowInstance ≠ nullptr
    ∧ FAILED keyboardSetUpFails.DirectInput8Create.result = false
    ∧ FAILED keyboardSetUpFails.keyboardSetDataFormat = true
    ∧ FAILED keyboardSetUpFails.keyboardSetCooperativeLevel = true
    ∧ FAILED keyboardSetUpFails.keyboardAcquire = true
    ∧ ∃ r, zeroed.Initialize 0x0800 keyboardSetUpFails = some r
        ∧ r.value = true
        ∧ r.trace =
          [Event.SetForegroundWindow 0x10,
            Event.DirectInput8Create 0x20 0x0800,
            Event.CreateDevice 0x1000 GUID.GUID_SysKeyboard,
            Event.SetDataFormat 0x2000 DIDATAFORMAT.c_dfDIKeyboard,
            Event.LOG_ERROR "DInput: Failed to initialize DirectInput keyboard data format.",
            Event.SetCooperativeLevel 0x2000 0x10 6,
            Event.LOG_ERROR "DInput: Failed to set DirectInput keyboard's cooperative level.",
            Event.Acquire 0x2000,
            Event.LOG_ERROR "DInput: Failed to aquire the keyboard.",
            Event.CreateDevice 0x1000 GUID.GUID_SysMouse,
            Event.SetDataFormat 0x3000 DIDATAFORMAT.c_dfDIMouse,
            Event.SetCooperativeLevel 0x3000 0x10 6,
            Event.Acquire 0x3000,
            Event.LOG_INFO "Input: DirectInput 8.00"] := by
  obtain ⟨line, hl, r, hr, h⟩ :=
    keyboard_failure_and_mouse 0x0800 zeroed keyboardSetUpFails
      (by decide) (by decide) (by decide)
  have hline : line = "Input: DirectInput 8.00" := by
    have h8 : versionLine 0x0800 = some "Input: DirectInput 8.00" := by decide
    rw [h8] at hl
    exact (Option.some.inj hl).symm
  subst hline
  have hk : FAILED keyboardSetUpFails.keyboardCreateDevice.result = false := by decide
  rw [hk] at h
  refine ⟨by decide, by decide, by decide, by decide, by decide, by decide, r, hr, ?_, ?_⟩
  · rw [h.1]
    decide
  · rw [h.2]
    decide

/-- C10: every call of `Initialize` returns; when it returns `true` its
events hold exactly one informational line and when it returns `false` they
hold none. The line is fixed by the version constant, and for a constant
whose lowercase hexadecimal rendering is the three digits `d1 d2 d3` it is
`"Input: DirectInput "` followed by `d1`, `"."` and `d2 d3`. -/
theorem Initialize_info_line (v : Nat) (s : DInput) (w : InitializePlatform) :
    ∃ r line, s.Initialize v w = some r
      ∧ infoLines r.trace = (if r.value then [line] else [])
      ∧ ∀ d1 d2 d3 : Char, Nat.toDigits 16 v = [d1, d2, d3] →
          line = "Input: DirectInput " ++ String.mk [d1] ++ "." ++ String.mk [d2, d3] := by
  obtain ⟨r, hr, hi⟩ := Initialize_infoLines v s w _ (versionLine_eq v)
  refine ⟨r, _, hr, hi, ?_⟩
  intro d1 d2 d3 hv
  simp [hex, hv]

/-- Witness of `Initialize_info_line`: the constant `0x0800` renders as
`800`, and a successful `Initialize` with it emits the single informational
line `Input: DirectInput 8.00`. -/
theorem Initialize_info_line_witness :
    Nat.toDigits 16 0x0800 = ['8', '0', '0']
    ∧ ∃ r, zeroed.Initialize 0x0800 allSucceed = some r ∧ r.value = true
        ∧ infoLines r.trace = ["Input: DirectInput 8.00"] := by
  obtain ⟨r, line, hr, hi, hf⟩ := Initialize_info_line 0x0800 zeroed allSucceed
  have hline := hf '8' '0' '0' (by decide)
  have hv : r.value = true := by
    have h2 : zeroed.Initialize 0x0800 allSucceed = some r := hr
    have h3 : (zeroed.Initialize 0x0800 allSucceed).map (fun x => x.value) = some true := rfl
    rw [h2] at h3
    simpa using h3
  refine ⟨by decide, r, hr, hv, ?_⟩
  rw [hi, hv, hline]
  rfl

/-! ## Teardown -/

set_option maxRecDepth 100000 in
theorem high_bit (b : BYTE) : decide (b.val &&& 0x80 ≠ 0) = b.val.testBit 7 := by
  revert b
  decide

theorem IsKeyboardKeyDown_eq (s : DInput) (k : Fin KEYBOARD_STATE_SIZE) :
    s.IsKeyboardKeyDown (k.val : Int) = some ((s.m_keyboardState k).val.testBit 7) := by
  have h : 0 ≤ (k.val : Int) ∧ (k.val : Int).toNat < KEYBOARD_STATE_SIZE := by
    constructor
    · exact Int.natCast_nonneg _
    · simp
  unfold DInput.IsKeyboardKeyDown
  rw [dif_pos h]
  simp only [Int.toNat_ofNat, Fin.eta]
  rw [high_bit]

theorem IsMouseKeyDown_eq (s : DInput) (i : Fin DIMOUSESTATE_BUTTONS) :
    s.IsMouseKeyDown (i.val : Int) = some ((s.m_mouseState.rgbButtons i).val.testBit 7) := by
  have h : 0 ≤ (i.val : Int) ∧ (i.val : Int).toNat < DIMOUSESTATE_BUTTONS := by
    constructor
    · exact Int.natCast_nonneg _
    · simp
  unfold DInput.IsMouseKeyDown
  rw [dif_pos h]
  simp only [Int.toNat_ofNat, Fin.eta]
  rw [high_bit]

theorem ReadKeyboard_succeeded (s : DInput) (read : DeviceState (Fin KEYBOARD_STATE_SIZE → BYTE))
    (acquire : HRESULT) (hk : s.m_keyboard ≠ nullptr) (hs : SUCCEEDED read.result = true) :
    s.ReadKeyboard read acquire
      = some ⟨true, { s with m_keyboardState := read.data },
          [Event.GetDeviceState s.m_keyboard KEYBOARD_STATE_SIZE]⟩ := by
  simp [DInput.ReadKeyboard, hk, hs, DeviceState.stored]

theorem ReadMouse_succeeded (s : DInput) (read : DeviceState DIMOUSESTATE)
    (acquire : HRESULT) (hm : s.m_mouse ≠ nullptr) (hs : SUCCEEDED read.result = true) :
    s.ReadMouse read acquire
      = some ⟨true, { s with m_mouseState := read.data },
          [Event.GetDeviceState s.m_mouse sizeof_DIMOUSESTATE]⟩ := by
  simp [DInput.ReadMouse, hm, hs, DeviceState.stored]

theorem ReadKeyboard_failed (s : DInput) (read : DeviceState (Fin KEYBOARD_STATE_SIZE → BYTE))
    (acquire : HRESULT) (hk : s.m_keyboard ≠ nullptr) (hs : SUCCEEDED read.result = false) :
    s.ReadKeyboard read acquire
      = some ⟨false, { s with m_keyboardState := read.onFailure.getD s.m_keyboardState },
          Event.GetDeviceState s.m_keyboard KEYBOARD_STATE_SIZE ::
            (if read.result = DIERR_INPUTLOST ∨ read.result = DIERR_NOTACQUIRED then
              [Event.Acquire s.m_keyboard] else [])⟩ := by
  have hst : read.stored s.m_keyboardState = read.onFailure.getD s.m_keyboardState := by
    unfold DeviceState.stored
    rw [hs]
    cases read.onFailure <;> rfl
  by_cases hl : read.result = DIERR_INPUTLOST ∨ read.result = DIERR_NOTACQUIRED
  · simp [DInput.ReadKeyboard, DInput.GetKeyboard, hk, hs, hst, hl]
  · simp [DInput.ReadKeyboard, hk, hs, hst, hl]

theorem ReadMouse_failed (s : DInput) (read : DeviceState DIMOUSESTATE)
    (acquire : HRESULT) (hm : s.m_mouse ≠ nullptr) (hs : SUCCEEDED read.result = false) :
    s.ReadMouse read acquire
      = some ⟨false, { s with m_mouseState := read.onFailure.getD s.m_mouseState },
          Event.GetDeviceState s.m_mouse sizeof_DIMOUSESTATE ::
            (if read.result = DIERR_INPUTLOST ∨ read.result = DIERR_NOTACQUIRED then
              [Event.Acquire s.m_mouse] else [])⟩ := by
  have hst : read.stored s.m_mouseState = read.onFailure.getD s.m_mouseState := by
    unfold DeviceState.stored
    rw [hs]
    cases read.onFailure <;> rfl
  by_cases hl : read.result = DIERR_INPUTLOST ∨ read.result = DIERR_NOTACQUIRED
  · simp [DInput.ReadMouse, DInput.GetMouse, hm, hs, hst, hl]
  · simp [DInput.ReadMouse, hm, hs, hst, hl]

theorem FAILED_iff (hr : HRESULT) : FAILED hr = true ↔ SUCCEEDED hr = false := by
  simp [FAILED, SUCCEEDED]

theorem lost_not_SUCCEEDED (hr : HRESULT)
    (h : hr = DIERR_INPUTLOST ∨ hr = DIERR_NOTACQUIRED) : SUCCEEDED hr = false := by
  rcases h with h | h <;> subst h <;> decide

/-- C4, as stated, fails: (a) a keyboard read that fails with
`DIERR_INPUTLOST` after the platform has stored bytes through the buffer
pointer leaves `m_keyboardState[30]` at `0x80` where it was `0`, and
likewise the mouse record's `lX` at `5` where it was `0`: the source hands
the live members to `GetDeviceState` and keeps no copy; (b) after an
`Initialize` in which mouse creation failed the keyboard pointer is live and
the mouse pointer null, and an `Update` whose reads fail has no result
there. -/
theorem failed_read_can_change_buffer :
    (∃ r, acquired.ReadKeyboard inputLostOverwritten.keyboardState 0 = some r
        ∧ r.value = false
        ∧ r.self.m_keyboardState 30 = 0x80 ∧ acquired.m_keyboardState 30 = 0)
    ∧ (∃ r, acquired.ReadMouse inputLostOverwritten.mouseState 0 = some r
        ∧ r.value = false
        ∧ r.self.m_mouseState.lX = 5 ∧ acquired.m_mouseState.lX = 0)
    ∧ (∃ r, zeroed.Initialize 0x0800 mouseCreationFails = some r
        ∧ r.value = false
        ∧ r.self.m_keyboard = 0x2000 ∧ r.self.m_mouse = nullptr
        ∧ r.self.Update inputLost = none) :=
  ⟨⟨_, rfl, rfl, rfl, rfl⟩, ⟨_, rfl, rfl, rfl, rfl⟩, ⟨_, rfl, rfl, rfl, rfl, rfl⟩⟩

/-- C4, amended: for every object and every failing `GetDeviceState` result
(`DIERR_INPUTLOST` and `DIERR_NOTACQUIRED` included, whatever the re-acquire
answers), `ReadKeyboard`, and likewise `ReadMouse`, has no result when its
device pointer is null and otherwise returns `false`, writes nothing itself
and changes no other member: afterwards the device's buffer holds what the
failing platform call left in it, its previous contents when the platform
stored nothing. `Update` has no result when either device pointer is null;
otherwise it leaves in each device's buffer, when that device's read fails,
what the failing call left there, so an `Update` whose two reads fail
without storing leaves the object as it was. -/
theorem failed_read_keeps_platform_bytes (s : DInput) (w : UpdatePlatform) :
    (FAILED w.keyboardState.result = true →
      s.ReadKeyboard w.keyboardState w.keyboardAcquire =
        if s.m_keyboard = nullptr then none
        else some ⟨false,
          { s with m_keyboardState := w.keyboardState.onFailure.getD s.m_keyboardState },
          Event.GetDeviceState s.m_keyboard KEYBOARD_STATE_SIZE ::
            (if w.keyboardState.result = DIERR_INPUTLOST
                ∨ w.keyboardState.result = DIERR_NOTACQUIRED then
              [Event.Acquire s.m_keyboard] else [])⟩)
    ∧ (FAILED w.mouseState.result = true →
      s.ReadMouse w.mouseState w.mouseAcquire =
        if s.m_mouse = nullptr then none
        else some ⟨false,
          { s with m_mouseState := w.mouseState.onFailure.getD s.m_mouseState },
          Event.GetDeviceState s.m_mouse sizeof_DIMOUSESTATE ::
            (if w.mouseState.result = DIERR_INPUTLOST
                ∨ w.mouseState.result = DIERR_NOTACQUIRED then
              [Event.Acquire s.m_mouse] else [])⟩)
    ∧ ((s.m_keyboard = nullptr ∨ s.m_mouse = nullptr) → s.Update w = none)
    ∧ (s.m_keyboard ≠ nullptr → s.m_mouse ≠ nullptr →
        ∃ r, s.Update w = some r
          ∧ r.self.m_directInput = s.m_directInput
          ∧ r.self.m_keyboard = s.m_keyboard
          ∧ r.self.m_mouse = s.m_mouse
          ∧ (FAILED w.keyboardState.result = true →
              r.self.m_keyboardState = w.keyboardState.onFailure.getD s.m_keyboardState)
          ∧ (FAILED w.mouseState.result = true →
              r.self.m_mouseState = w.mouseState.onFailure.getD s.m_mouseState)
          ∧ (FAILED w.keyboardState.result = true → FAILED w.mouseState.result = true →
              w.keyboardState.onFailure = none → w.mouseState.onFailure = none →
              r.self = s)) := by
  have contra : ∀ hr : HRESULT, SUCCEEDED hr = true → FAILED hr = true → False := by
    intro hr h1 h2
    rw [(FAILED_iff _).mp h2] at h1
    cases h1
  refine ⟨?_, ?_, ?_, ?_⟩
  · intro hf
    by_cases hk : s.m_keyboard = nullptr
    · simp [DInput.ReadKeyboard, hk]
    · rw [if_neg hk]
      exact ReadKeyboard_failed s _ _ hk ((FAILED_iff _).mp hf)
  · intro hf
    by_cases hm : s.m_mouse = nullptr
    · simp [DInput.ReadMouse, hm]
    · rw [if_neg hm]
      exact ReadMouse_failed s _ _ hm ((FAILED_iff _).mp hf)
  · intro h
    by_cases hk : s.m_keyboard = nullptr
    · simp [DInput.Update, DInput.ReadKeyboard, hk]
    · have hm : s.m_mouse = nullptr := h.resolve_left hk
      cases hks : SUCCEEDED w.keyboardState.result
      · have e1 := ReadKeyboard_failed s w.keyboardState w.keyboardAcquire hk hks
        simp [DInput.Update, e1, DInput.ReadMouse, hm]
      · have e1 := ReadKeyboard_succeeded s w.keyboardState w.keyboardAcquire hk hks
        simp [DInput.Update, e1, DInput.ReadMouse, hm]
  · intro hk hm
    cases hks : SUCCEEDED w.keyboardState.result <;>
    cases hms : SUCCEEDED w.mouseState.result
    · have e1 := ReadKeyboard_failed s w.keyboardState w.keyboardAcquire hk hks
      have e2 := ReadMouse_failed
        { s with m_keyboardState := w.keyboardState.onFailure.getD s.m_keyboardState }
        w.mouseState w.mouseAcquire hm hms
      simp only [DInput.Update, e1, e2]
      refine ⟨_, rfl, rfl, rfl, rfl, fun _ => rfl, fun _ => rfl, ?_⟩
      intro _ _ hkn hmn
      simp [hkn, hmn]
    · have e1 := ReadKeyboard_failed s w.keyboardState w.keyboardAcquire hk hks
      have e2 := ReadMouse_succeeded
        { s with m_keyboardState := w.keyboardState.onFailure.getD s.m_keyboardState }
        w.mouseState w.mouseAcquire hm hms
      simp only [DInput.Update, e1, e2]
      exact ⟨_, rfl, rfl, rfl, rfl, fun _ => rfl, fun hf => (contra _ hms hf).elim,
        fun _ hf => (contra _ hms hf).elim⟩
    · have e1 := ReadKeyboard_succeeded s w.keyboardState w.keyboardAcquire hk hks
      have e2 := ReadMouse_failed { s with m_keyboardState := w.keyboardState.data }
        w.mouseState w.mouseAcquire hm hms
      simp only [DInput.Update, e1, e2]
      exact ⟨_, rfl, rfl, rfl, rfl, fun hf => (contra _ hks hf).elim, fun _ => rfl,
        fun hf => (contra _ hks hf).elim⟩
    · have e1 := ReadKeyboard_succeeded s w.keyboardState w.keyboardAcquire hk hks
      have e2 := ReadMouse_succeeded { s with m_keyboardState := w.keyboardState.data }
        w.mouseState w.mouseAcquire hm hms
      simp only [DInput.Update, e1, e2]
      exact ⟨_, rfl, rfl, rfl, rfl, fun hf => (contra _ hks hf).elim,
        fun hf => (contra _ hms hf).elim, fun hf => (contra _ hks hf).elim⟩

/-- Witness of `failed_read_keeps_platform_bytes`: both reads of an `Update`
on an acquired object fail with `DIERR_INPUTLOST` and store nothing; each
read returns `false` after one re-acquire and the object is as before. -/
theorem failed_read_keeps_platform_bytes_witness :
    FAILED inputLost.keyboardState.result = true
    ∧ FAILED inputLost.mouseState.result = true
    ∧ acquired.ReadKeyboard inputLost.keyboardState inputLost.keyboardAcquire
        = some ⟨false, acquired, [Event.GetDeviceState 0x2000 256, Event.Acquire 0x2000]⟩
    ∧ acquired.ReadMouse inputLost.mouseState inputLost.mouseAcquire
        = some ⟨false, acquired, [Event.GetDeviceState 0x3000 16, Event.Acquire 0x3000]⟩
    ∧ ∃ r, acquired.Update inputLost = some r ∧ r.self = acquired := by
  have h := failed_read_keeps_platform_bytes acquired inputLost
  obtain ⟨r, hr, _, _, _, _, _, hsame⟩ := h.2.2.2 (by decide) (by decide)
  exact ⟨by decide, by decide, h.1 (by decide), h.2.1 (by decide), r, hr,
    hsame (by decide) (by decide) rfl rfl⟩

/-- C9: on an object with live device pointers, `ReadKeyboard` (and likewise
`ReadMouse`) returns `true` exactly when `GetDeviceState` succeeded; its
events are the one `GetDeviceState` on its own device, followed by exactly
one `Acquire` on that same device when the result is `DIERR_INPUTLOST` or
`DIERR_NOTACQUIRED` and by nothing otherwise; the value returned does not
depend on what the re-acquire answers. -/
theorem read_value_and_reacquire (s : DInput) (w : UpdatePlatform)
    (hk : s.m_keyboard ≠ nullptr) (hm : s.m_mouse ≠ nullptr) :
    (∃ r, s.ReadKeyboard w.keyboardState w.keyboardAcquire = some r
        ∧ r.value = SUCCEEDED w.keyboardState.result
        ∧ r.trace = Event.GetDeviceState s.m_keyboard KEYBOARD_STATE_SIZE ::
            (if w.keyboardState.result = DIERR_INPUTLOST
                ∨ w.keyboardState.result = DIERR_NOTACQUIRED then
              [Event.Acquire s.m_keyboard] else []))
    ∧ (∃ r, s.ReadMouse w.mouseState w.mouseAcquire = some r
        ∧ r.value = SUCCEEDED w.mouseState.result
        ∧ r.trace = Event.GetDeviceState s.m_mouse sizeof_DIMOUSESTATE ::
            (if w.mouseState.result = DIERR_INPUTLOST
                ∨ w.mouseState.result = DIERR_NOTACQUIRED then
              [Event.Acquire s.m_mouse] else [])) := by
  constructor
  · cases hs : SUCCEEDED w.keyboardState.result
    · exact ⟨_, ReadKeyboard_failed s _ _ hk hs, rfl, rfl⟩
    · refine ⟨_, ReadKeyboard_succeeded s _ _ hk hs, rfl, ?_⟩
      have hl : ¬ (w.keyboardState.result = DIERR_INPUTLOST
          ∨ w.keyboardState.result = DIERR_NOTACQUIRED) := by
        intro h
        rw [lost_not_SUCCEEDED _ h] at hs
        cases hs
      rw [if_neg hl]
  · cases hs : SUCCEEDED w.mouseState.result
    · exact ⟨_, ReadMouse_failed s _ _ hm hs, rfl, rfl⟩
    · refine ⟨_, ReadMouse_succeeded s _ _ hm hs, rfl, ?_⟩
      have hl : ¬ (w.mouseState.result = DIERR_INPUTLOST
          ∨ w.mouseState.result = DIERR_NOTACQUIRED) := by
        intro h
        rw [lost_not_SUCCEEDED _ h] at hs
        cases hs
      rw [if_neg hl]

/-- Witness of `read_value_and_reacquire`: both reads on an acquired object
fail with `DIERR_INPUTLOST`, each followed by one `Acquire`. -/
theorem read_value_and_reacquire_witness :
    acquired.m_keyboard ≠ nullptr ∧ acquired.m_mouse ≠ nullptr
    ∧ (∃ r, acquired.ReadKeyboard inputLost.keyboardState inputLost.keyboardAcquire = some r
        ∧ r.value = false
        ∧ r.trace = [Event.GetDeviceState 0x2000 256, Event.Acquire 0x2000])
    ∧ (∃ r, acquired.ReadMouse inputLost.mouseState inputLost.mouseAcquire = some r
        ∧ r.value = false
        ∧ r.trace = [Event.GetDeviceState 0x3000 16, Event.Acquire 0x3000]) :=
  ⟨by decide, by decide,
    read_value_and_reacquire acquired inputLost (by decide) (by decide)⟩

/-- C5: after a successful `ReadKeyboard` that delivers the buffer
`read.data`, `IsKeyboardKeyDown(k)` is, for every key code `k` in `[0,255]`,
defined and true exactly when bit 7 (`0x80`) of `read.data[k]` is set; any
object whose byte `k` has the same bit 7 gives the same answer, so the other
seven bits and the other entries have no influence. When the delivered
buffer holds `0x80` at index 30 and `0` elsewhere, key 30 is down and every
other key is up. -/
theorem IsKeyboardKeyDown_high_bit (s : DInput)
    (read : DeviceState (Fin KEYBOARD_STATE_SIZE → BYTE)) (acquire : HRESULT)
    (hk : s.m_keyboard ≠ nullptr) (hs : SUCCEEDED read.result = true) :
    ∃ r, s.ReadKeyboard read acquire = some r ∧ r.value = true
      ∧ (∀ k : Fin KEYBOARD_STATE_SIZE,
          r.self.IsKeyboardKeyDown (k.val : Int) = some ((read.data k).val.testBit 7))
      ∧ (∀ (other : DInput) (k : Fin KEYBOARD_STATE_SIZE),
          (other.m_keyboardState k).val.testBit 7 = (read.data k).val.testBit 7 →
            other.IsKeyboardKeyDown (k.val : Int) = r.self.IsKeyboardKeyDown (k.val : Int))
      ∧ ((read.data 30 = 0x80 ∧ ∀ k : Fin KEYBOARD_STATE_SIZE, k ≠ 30 → read.data k = 0) →
          r.self.IsKeyboardKeyDown 30 = some true
          ∧ ∀ k : Fin KEYBOARD_STATE_SIZE, k ≠ 30 →
              r.self.IsKeyboardKeyDown (k.val : Int) = some false) := by
  refine ⟨_, ReadKeyboard_succeeded s read acquire hk hs, rfl, ?_, ?_, ?_⟩
  · intro k
    rw [IsKeyboardKeyDown_eq]
  · intro other k h
    rw [IsKeyboardKeyDown_eq, IsKeyboardKeyDown_eq, h]
  · rintro ⟨h30, hrest⟩
    constructor
    · show DInput.IsKeyboardKeyDown { s with m_keyboardState := read.data }
        (((30 : Fin KEYBOARD_STATE_SIZE).val : Nat) : Int) = some true
      rw [IsKeyboardKeyDown_eq]
      show some ((read.data 30).val.testBit 7) = some true
      rw [h30]
      rfl
    · intro k hk30
      rw [IsKeyboardKeyDown_eq]
      show some ((read.data k).val.testBit 7) = some false
      rw [hrest k hk30]
      rfl

/-- Witness of `IsKeyboardKeyDown_high_bit`: the read delivers `0x80` at
index 30 only; key 30 is down, key 31 is up. -/
theorem IsKeyboardKeyDown_high_bit_witness :
    acquired.m_keyboard ≠ nullptr ∧ SUCCEEDED bothRead.keyboardState.result = true
    ∧ ∃ r, acquired.ReadKeyboard bothRead.keyboardState 0 = some r ∧ r.value = true
        ∧ r.self.IsKeyboardKeyDown 30 = some true
        ∧ r.self.IsKeyboardKeyDown 31 = some false := by
  obtain ⟨r, hr, hv, hall, _, _⟩ :=
    IsKeyboardKeyDown_high_bit acquired bothRead.keyboardState 0 (by decide) (by decide)
  exact ⟨by decide, by decide, r, hr, hv, hall 30, hall 31⟩

/-! ## The mouse record -/

theorem ReadMouse_then_queries {F : Type} (toFloat : LONG → F) (s : DInput)
    (read : DeviceState DIMOUSESTATE) (acquire : HRESULT)
    (hm : s.m_mouse ≠ nullptr) (hs : SUCCEEDED read.result = true) :
    ∃ r, s.ReadMouse read acquire = some r ∧ r.value = true
      ∧ r.self.GetMouseDelta toFloat
          = ⟨toFloat read.data.lX, toFloat read.data.lY, toFloat read.data.lZ⟩
      ∧ (∀ i : Fin DIMOUSESTATE_BUTTONS,
          r.self.IsMouseKeyDown (i.val : Int) = some ((read.data.rgbButtons i).val.testBit 7))
      ∧ (∀ key : Int, DIMOUSESTATE_BUTTONS ≤ key → r.self.IsMouseKeyDown key = none) := by
  refine ⟨_, ReadMouse_succeeded s read acquire hm hs, rfl, rfl, ?_, ?_⟩
  · intro i
    rw [IsMouseKeyDown_eq]
  · intro key hkey
    unfold DInput.IsMouseKeyDown
    rw [dif_neg]
    rintro ⟨h0, h1⟩
    have : (key.toNat : Int) = key := Int.toNat_of_nonneg h0
    simp only [DIMOUSESTATE_BUTTONS] at h1 hkey
    omega

/-- C7 at its failing input: after a successful `ReadMouse` that delivers
`lX = 5, lY = -3, lZ = 120, rgbButtons[0] = 0x80`, `GetMouseDelta` is
`(5, -3, 120)`, button 0 is down and button 1 is up, but `IsMouseKeyDown`
has no defined result for the side-button indices 4, 5, 6 and 7: the record
that `ReadMouse` fills has four button bytes. -/
theorem IsMouseKeyDown_side_buttons :
    ∃ r, acquired.ReadMouse ⟨0, leftButtonDown, none⟩ 0 = some r ∧ r.value = true
      ∧ r.self.GetMouseDelta exactFloat = ⟨5, -3, 120⟩
      ∧ r.self.IsMouseKeyDown 0 = some true
      ∧ r.self.IsMouseKeyDown 1 = some false
      ∧ r.self.IsMouseKeyDown 4 = none
      ∧ r.self.IsMouseKeyDown 5 = none
      ∧ r.self.IsMouseKeyDown 6 = none
      ∧ r.self.IsMouseKeyDown 7 = none := by
  refine ⟨_, rfl, rfl, ?_, rfl, rfl, rfl, rfl, rfl, rfl⟩
  simp [DInput.GetMouseDelta, exactFloat, DeviceState.stored, SUCCEEDED, leftButtonDown]

/-! ## The buffers before the first successful read -/

theorem Initialize_keeps_buffers (v : Nat) (s : DInput) (w : InitializePlatform) :
    ∃ r, s.Initialize v w = some r
      ∧ r.self.m_mouseState = s.m_mouseState
      ∧ r.self.m_keyboardState = s.m_keyboardState := by
  by_cases h0 : w.GetWindowHandle = nullptr ∨ w.GetWindowInstance = nullptr
  · exact ⟨⟨false, s, []⟩, by simp [DInput.Initialize, h0], rfl, rfl⟩
  · cases hd : FAILED w.DirectInput8Create.result with
    | true => simp [DInput.Initialize, h0, hd]
    | false =>
      have nd := w.DirectInput8Create.nonnull ((not_FAILED_iff _).mp hd)
      cases hk : FAILED w.keyboardCreateDevice.result with
      | true => simp [DInput.Initialize, h0, hd, hk, nd]
      | false =>
        have nk := w.keyboardCreateDevice.nonnull ((not_FAILED_iff _).mp hk)
        cases hm : FAILED w.mouseCreateDevice.result with
        | true => simp [DInput.Initialize, DInput.GetKeyboard, h0, hd, hk, hm, nd, nk]
        | false =>
          have nm := w.mouseCreateDevice.nonnull ((not_FAILED_iff _).mp hm)
          simp [DInput.Initialize, DInput.GetKeyboard, DInput.GetMouse, versionLine_eq,
            h0, hd, hk, hm, nd, nk, nm]

theorem Update_keeps_mouseState (s : DInput) (w : UpdatePlatform) (r : Ret Unit)
    (h : s.Update w = some r) (hf : SUCCEEDED w.mouseState.result = false)
    (hn : w.mouseState.onFailure = none) :
    r.self.m_mouseState = s.m_mouseState := by
  by_cases hk : s.m_keyboard = nullptr
  · simp [DInput.Update, DInput.ReadKeyboard, hk] at h
  · by_cases hm : s.m_mouse = nullptr
    · cases hks : SUCCEEDED w.keyboardState.result
      · have e1 := ReadKeyboard_failed s w.keyboardState w.keyboardAcquire hk hks
        simp [DInput.Update, e1, DInput.ReadMouse, hm] at h
      · have e1 := ReadKeyboard_succeeded s w.keyboardState w.keyboardAcquire hk hks
        simp [DInput.Update, e1, DInput.ReadMouse, hm] at h
    · cases hks : SUCCEEDED w.keyboardState.result
      · have e1 := ReadKeyboard_failed s w.keyboardState w.keyboardAcquire hk hks
        have e2 := ReadMouse_failed
          { s with m_keyboardState := w.keyboardState.onFailure.getD s.m_keyboardState }
          w.mouseState w.mouseAcquire hm hf
        simp only [DInput.Update, e1, e2, Option.some.injEq] at h
        subst h
        simp [hn]
      · have e1 := ReadKeyboard_succeeded s w.keyboardState w.keyboardAcquire hk hks
        have e2 := ReadMouse_failed { s with m_keyboardState := w.keyboardState.data }
          w.mouseState w.mouseAcquire hm hf
        simp only [DInput.Update, e1, e2, Option.some.injEq] at h
        subst h
        simp [hn]

theorem run_keeps_mouseState (v : Nat) (calls : List Call) :
    ∀ (s s' : DInput), (∀ c ∈ calls, c.mouseRecordWritten = false) →
      s.run v calls = some s' → s'.m_mouseState = s.m_mouseState := by
  induction calls with
  | nil =>
    intro s s' _ h
    simp only [DInput.run, Option.some.injEq] at h
    rw [h]
  | cons c rest ih =>
    intro s s' hall h
    have hrest : ∀ c ∈ rest, c.mouseRecordWritten = false :=
      fun c hc => hall c (List.mem_cons_of_mem _ hc)
    cases c with
    | Initialize w =>
      obtain ⟨r, hr, hms, _⟩ := Initialize_keeps_buffers v s w
      simp only [DInput.run, hr] at h
      rw [ih r.self s' hrest h, hms]
    | Update w =>
      have hw : (Call.Update w).mouseRecordWritten = false := hall _ (List.mem_cons_self _ _)
      have hf : SUCCEEDED w.mouseState.result = false := by
        simp only [Call.mouseRecordWritten, Bool.or_eq_false_iff] at hw
        exact hw.1
      have hn : w.mouseState.onFailure = none := by
        simp only [Call.mouseRecordWritten, Bool.or_eq_false_iff] at hw
        simpa using hw.2
      cases hu : s.Update w with
      | none => simp [DInput.run, hu] at h
      | some r =>
        simp only [DInput.run, hu] at h
        rw [ih r.self s' hrest h, Update_keeps_mouseState s w r hu hf hn]

/-- C6 at its failing input: an object constructed in storage whose mouse
record holds `lX = 7` reports the mouse delta `(7, 0, 0)`, not `(0, 0, 0)`,
right after construction and also after a successful `Initialize` followed
by an `Update` whose reads fail; no mouse read has succeeded. -/
theorem GetMouseDelta_before_first_read :
    (DInput.constructor dirtyStorage).GetMouseDelta exactFloat = ⟨7, 0, 0⟩
    ∧ (DInput.constructor dirtyStorage).GetMouseDelta exactFloat ≠ ⟨0, 0, 0⟩
    ∧ ((DInput.constructor dirtyStorage).run 0x0800
          [Call.Initialize allSucceed, Call.Update inputLost]).map
        (fun s => s.GetMouseDelta exactFloat) = some ⟨7, 0, 0⟩ := by
  refine ⟨?_, ?_, ?_⟩
  · simp [DInput.GetMouseDelta, DInput.constructor, dirtyStorage, exactFloat]
  · simp [DInput.GetMouseDelta, DInput.constructor, dirtyStorage, exactFloat]
  · have h : ((DInput.constructor dirtyStorage).run 0x0800
          [Call.Initialize allSucceed, Call.Update inputLost]).map
        (fun s => s.m_mouseState.lX) = some 7 := rfl
    have h2 : ((DInput.constructor dirtyStorage).run 0x0800
          [Call.Initialize allSucceed, Call.Update inputLost]).map
        (fun s => (s.m_mouseState.lY, s.m_mouseState.lZ)) = some (0, 0) := rfl
    cases hr : (DInput.constructor dirtyStorage).run 0x0800
          [Call.Initialize allSucceed, Call.Update inputLost] with
    | none => rw [hr] at h; cases h
    | some s =>
      rw [hr] at h h2
      simp only [Option.map_some', Option.some.injEq, Prod.mk.injEq] at h h2
      simp [DInput.GetMouseDelta, exactFloat, h, h2.1, h2.2]

/-- What holds in place of C6: along every sequence of `Initialize` and
`Update` calls that completes and in which the platform stores nothing in
the mouse record (no mouse read succeeds, no failing read stores),
`GetMouseDelta` keeps returning the three values the mouse record held when
the object was constructed, so `(0, 0, 0)` when that storage was zero. -/
theorem GetMouseDelta_is_initial_record {F : Type} (toFloat : LONG → F) (v : Nat)
    (storage s' : DInput) (calls : List Call)
    (hall : ∀ c ∈ calls, c.mouseRecordWritten = false)
    (hrun : (DInput.constructor storage).run v calls = some s') :
    s'.GetMouseDelta toFloat
      = ⟨toFloat storage.m_mouseState.lX, toFloat storage.m_mouseState.lY,
          toFloat storage.m_mouseState.lZ⟩ := by
  have h := run_keeps_mouseState v calls (DInput.constructor storage) s' hall hrun
  simp only [DInput.GetMouseDelta, h, DInput.constructor]

end Directus
